import Mathlib

/-
  Verification of the billing / portfolio backend.

  The data-access layer (storage.ts, class DatabaseStorage) is embedded as
  pure functions over an explicit Storage state; each table is a list of
  rows, and the drizzle patterns
    db.select().from(t).where(eq(t.k, v))   followed by [x] = ...
    db.update(t).set(patch).where(eq(t.k, v)).returning()
  become List.find? and List.map with a record update.  Generated row ids
  are drawn from a nextId counter; the wall clock (new Date()) is passed in
  as an explicit Nat.  The route handlers of routes.ts are embedded as
  functions from the storage and processor states to new states plus the
  HTTP response.  The Event Ingestion Pipeline and State Reconciler, which
  the source webhook stub does not implement, are modelled from the design
  document (spec sections 4.2 and 4.3).
-/

set_option autoImplicit false

namespace Invest

/-- A row of the users table, with the fields the routes touch. -/
structure User where
  id : String
  email : Option String
  firstName : Option String
  lastName : Option String
  stripeCustomerId : Option String
  stripeSubscriptionId : Option String
  currentPlan : Option String
  updatedAt : Nat
  deriving Repr, DecidableEq, Inhabited

/-- A row of the plans table (fields as constructed by seedPlans). -/
structure Plan where
  id : String
  name : String
  price : String
  features : List String
  portfolioLimit : Option Nat
  rebalancingFrequency : String
  managementFee : String
  hasAdvancedAnalytics : Bool
  hasTaxOptimization : Bool
  hasDedicatedAdvisor : Bool
  isPopular : Bool
  deriving Repr, DecidableEq, Inhabited

/-- A row of the portfolios table. -/
structure Portfolio where
  id : String
  userId : String
  totalValue : String
  totalReturn : String
  monthlyDeposit : String
  activeInvestments : Nat
  updatedAt : Nat
  deriving Repr, DecidableEq, Inhabited

/-- A row of the portfolio_history table. -/
structure PortfolioHistory where
  id : String
  portfolioId : String
  value : String
  date : Nat
  deriving Repr, DecidableEq, Inhabited

/-- A row of the payments table. -/
structure Payment where
  id : String
  userId : String
  amount : String
  status : String
  stripePaymentIntentId : Option String
  createdAt : Nat
  deriving Repr, DecidableEq, Inhabited

/-- The persisted state behind DatabaseStorage: one list per table plus a
counter supplying generated row identifiers. -/
structure Storage where
  users : List User
  plans : List Plan
  portfolios : List Portfolio
  portfolioHistory : List PortfolioHistory
  payments : List Payment
  nextId : Nat
  deriving Repr, DecidableEq, Inhabited

/-- DatabaseStorage.getUser: select from users where users.id = id. -/
def getUser (s : Storage) (id : String) : Option User :=
  s.users.find? (fun u => u.id == id)

/-- DatabaseStorage.getPlans: select all plans. -/
def getPlans (s : Storage) : List Plan :=
  s.plans

/-- DatabaseStorage.getPlan: select from plans where plans.id = id. -/
def getPlan (s : Storage) (id : String) : Option Plan :=
  s.plans.find? (fun p => p.id == id)

/-- DatabaseStorage.getUserPortfolio: select from portfolios where
portfolios.userId = userId. -/
def getUserPortfolio (s : Storage) (userId : String) : Option Portfolio :=
  s.portfolios.find? (fun p => p.userId == userId)

/-- The patch object accepted by DatabaseStorage.updateUser; a none field
is absent from the patch and leaves the column unchanged. -/
structure UserPatch where
  email : Option String := none
  firstName : Option String := none
  lastName : Option String := none
  currentPlan : Option String := none
  deriving Repr, DecidableEq, Inhabited

/-- DatabaseStorage.updateUser: update users set {...userData, updatedAt: now}
where users.id = id, returning the updated row (or none). -/
def updateUser (s : Storage) (id : String) (patch : UserPatch) (now : Nat) :
    Storage × Option User :=
  let updated := s.users.map (fun u =>
    if u.id == id then
      { u with
        email := if patch.email.isSome then patch.email else u.email
        firstName := if patch.firstName.isSome then patch.firstName else u.firstName
        lastName := if patch.lastName.isSome then patch.lastName else u.lastName
        currentPlan := if patch.currentPlan.isSome then patch.currentPlan else u.currentPlan
        updatedAt := now }
    else u)
  ({ s with users := updated }, updated.find? (fun u => u.id == id))

/-- DatabaseStorage.updateUserStripeInfo: update users set
{stripeCustomerId, stripeSubscriptionId, updatedAt: now} where users.id = id. -/
def updateUserStripeInfo (s : Storage) (id cid sid : String) (now : Nat) :
    Storage × Option User :=
  let updated := s.users.map (fun u =>
    if u.id == id then
      { u with stripeCustomerId := some cid, stripeSubscriptionId := some sid,
               updatedAt := now }
    else u)
  ({ s with users := updated }, updated.find? (fun u => u.id == id))

/-- DatabaseStorage.createPortfolio: insert into portfolios, returning the
new row; the row id is generated by the database. -/
def createPortfolio (s : Storage) (userId totalValue totalReturn monthlyDeposit : String)
    (activeInvestments : Nat) (now : Nat) : Storage × Portfolio :=
  let p : Portfolio :=
    { id := "p" ++ toString s.nextId, userId := userId, totalValue := totalValue,
      totalReturn := totalReturn, monthlyDeposit := monthlyDeposit,
      activeInvestments := activeInvestments, updatedAt := now }
  ({ s with portfolios := s.portfolios ++ [p], nextId := s.nextId + 1 }, p)

/-- DatabaseStorage.addPortfolioHistory: insert into portfolio_history with
date = new Date(), returning the new row. -/
def addPortfolioHistory (s : Storage) (portfolioId value : String) (now : Nat) :
    Storage × PortfolioHistory :=
  let h : PortfolioHistory :=
    { id := "h" ++ toString s.nextId, portfolioId := portfolioId, value := value,
      date := now }
  ({ s with portfolioHistory := s.portfolioHistory ++ [h], nextId := s.nextId + 1 }, h)

/-- Insert one history row into a list kept sorted by date descending
(models orderBy desc(date)). -/
def insertByDateDesc (h : PortfolioHistory) : List PortfolioHistory → List PortfolioHistory
  | [] => [h]
  | x :: xs => if x.date ≤ h.date then h :: x :: xs else x :: insertByDateDesc h xs

/-- DatabaseStorage.getPortfolioHistory: select from portfolio_history where
portfolioId matches, order by date desc, limit. -/
def getPortfolioHistory (s : Storage) (portfolioId : String) (limit : Nat) :
    List PortfolioHistory :=
  (((s.portfolioHistory.filter (fun h => h.portfolioId == portfolioId)).foldr
      insertByDateDesc []).take limit)

/-- DatabaseStorage.updatePaymentStatus: update payments set {status}
where payments.id = id, returning the updated row (or none when no row
matched). -/
def updatePaymentStatus (s : Storage) (id status : String) : Storage × Option Payment :=
  let updated := s.payments.map (fun p => if p.id == id then { p with status := status } else p)
  ({ s with payments := updated }, updated.find? (fun p => p.id == id))

/-! ### The Stripe processor, as the routes use it

The route handlers in routes.ts call the Stripe SDK for customer creation,
subscription creation and subscription/invoice retrieval.  Stripe is
embedded as an explicit state whose object ids are drawn from its own
counter; a retrieval of a missing object throws in the SDK, which the
handler's catch turns into a 500 response, so retrieval returns Option. -/

/-- A Stripe customer object as created by the route. -/
structure StripeCustomer where
  id : String
  email : String
  name : String
  metaUserId : String
  deriving Repr, DecidableEq, Inhabited

/-- A Stripe invoice with its expanded payment intent's client secret. -/
structure StripeInvoice where
  id : String
  paymentIntentSecret : Option String
  deriving Repr, DecidableEq, Inhabited

/-- A Stripe subscription object; productName and priceStr record the
price_data the route passes on creation. -/
structure StripeSubscription where
  id : String
  customerId : String
  latestInvoice : String
  productName : String
  priceStr : String
  status : String
  deriving Repr, DecidableEq, Inhabited

/-- The processor-side state. -/
structure StripeState where
  customers : List StripeCustomer
  subscriptions : List StripeSubscription
  invoices : List StripeInvoice
  nextId : Nat
  deriving Repr, DecidableEq, Inhabited

/-- stripe.subscriptions.retrieve. -/
def retrieveSubscription (sp : StripeState) (sid : String) : Option StripeSubscription :=
  sp.subscriptions.find? (fun s => s.id == sid)

/-- stripe.invoices.retrieve with expand payment_intent. -/
def retrieveInvoice (sp : StripeState) (iid : String) : Option StripeInvoice :=
  sp.invoices.find? (fun i => i.id == iid)

/-- stripe.customers.create. -/
def createCustomer (sp : StripeState) (email name metaUserId : String) :
    StripeState × StripeCustomer :=
  let c : StripeCustomer :=
    { id := "cus_" ++ toString sp.nextId, email := email, name := name,
      metaUserId := metaUserId }
  ({ sp with customers := sp.customers ++ [c], nextId := sp.nextId + 1 }, c)

/-- stripe.subscriptions.create with payment_behavior default_incomplete and
latest_invoice.payment_intent expanded: the processor creates the
subscription together with its first invoice and payment intent. -/
def createStripeSubscription (sp : StripeState) (customerId productName priceStr : String) :
    StripeState × StripeSubscription × StripeInvoice :=
  let n := sp.nextId
  let inv : StripeInvoice :=
    { id := "in_" ++ toString n, paymentIntentSecret := some ("seti_" ++ toString n) }
  let sub : StripeSubscription :=
    { id := "sub_" ++ toString n, customerId := customerId, latestInvoice := inv.id,
      productName := productName, priceStr := priceStr, status := "incomplete" }
  ({ sp with subscriptions := sp.subscriptions ++ [sub],
             invoices := sp.invoices ++ [inv], nextId := n + 1 }, sub, inv)

/-- An HTTP JSON response of the subscription route: status code plus the
fields the handler writes. -/
structure ApiResponse where
  status : Nat
  subscriptionId : Option String := none
  clientSecret : Option String := none
  message : Option String := none
  deriving Repr, DecidableEq, Inhabited

/-- The display name built by the route:
trim of firstName + space + lastName, falling back to the email. -/
def customerDisplayName (firstName lastName : Option String) (email : String) : String :=
  let n := (firstName.getD "" ++ " " ++ lastName.getD "").trim
  if n = "" then email else n

/-- POST /api/create-subscription (routes.ts): validates planId, looks up
user and plan, returns the existing subscription when the user already has
one, rejects a user with no email, and otherwise creates the processor
customer and subscription and records them on the user row. -/
def createSubscriptionRoute (st : Storage) (sp : StripeState) (userId : String)
    (planId : Option String) (now : Nat) : Storage × StripeState × ApiResponse :=
  match planId with
  | none => (st, sp, { status := 400, message := some "Plan ID is required" })
  | some pid =>
    match getUser st userId, getPlan st pid with
    | none, _ => (st, sp, { status := 404, message := some "User not found" })
    | some _, none => (st, sp, { status := 404, message := some "Plan not found" })
    | some user, some plan =>
      match user.stripeSubscriptionId with
      | some sid =>
        match retrieveSubscription sp sid with
        | none => (st, sp, { status := 500, message := some "Error creating subscription" })
        | some sub =>
          match retrieveInvoice sp sub.latestInvoice with
          | none => (st, sp, { status := 500, message := some "Error creating subscription" })
          | some inv =>
            (st, sp, { status := 200, subscriptionId := some sub.id,
                       clientSecret := inv.paymentIntentSecret })
      | none =>
        match user.email with
        | none => (st, sp, { status := 400, message := some "No user email on file" })
        | some email =>
          let name := customerDisplayName user.firstName user.lastName email
          let (sp1, customer) := createCustomer sp email name userId
          let (sp2, sub, inv) := createStripeSubscription sp1 customer.id plan.name plan.price
          let (st1, _) := updateUserStripeInfo st userId customer.id sub.id now
          let (st2, _) := updateUser st1 userId { currentPlan := some pid } now
          (st2, sp2, { status := 200, subscriptionId := some sub.id,
                       clientSecret := inv.paymentIntentSecret })

/-! ### The webhook stub, seedPlans and the portfolio route (routes.ts) -/

/-- The event type field the webhook handler switches on. -/
inductive StripeEventType where
  | paymentIntentSucceeded
  | customerSubscriptionUpdated
  | other (t : String)
  deriving Repr, DecidableEq, Inhabited

/-- A parsed webhook body: the type tag and the event.data.object, which
the handler binds but never uses. -/
structure WebhookPayload where
  type : StripeEventType
  dataObject : String
  deriving Repr, DecidableEq, Inhabited

/-- The webhook response: HTTP status and the received flag. -/
structure WebhookResponse where
  status : Nat
  received : Bool
  deriving Repr, DecidableEq, Inhabited

/-- POST /api/stripe-webhook (routes.ts): switches on event.type with empty
case bodies and answers 200 received true; a body on which reading
event.type throws (none here) lands in the catch, answering 500.  No
storage call occurs on any path. -/
def stripeWebhookRoute (st : Storage) (payload : Option WebhookPayload) :
    Storage × WebhookResponse :=
  match payload with
  | none => (st, { status := 500, received := false })
  | some ev =>
    match ev.type with
    | .paymentIntentSucceeded =>
      let _paymentIntent := ev.dataObject
      (st, { status := 200, received := true })
    | .customerSubscriptionUpdated =>
      let _subscription := ev.dataObject
      (st, { status := 200, received := true })
    | .other _ => (st, { status := 200, received := true })

/-- The three default plan rows seedPlans builds when the plans table is
empty. -/
def defaultPlans : List Plan :=
  [{ id := "starter", name := "Starter", price := "0.00",
     features := ["Up to $10,000 portfolio", "Basic portfolio tracking",
                  "Monthly rebalancing", "Email support"],
     portfolioLimit := some 10000, rebalancingFrequency := "monthly",
     managementFee := "0.0025", hasAdvancedAnalytics := false,
     hasTaxOptimization := false, hasDedicatedAdvisor := false,
     isPopular := false },
   { id := "professional", name := "Professional", price := "29.00",
     features := ["Up to $100,000 portfolio", "Advanced analytics",
                  "Weekly rebalancing", "Priority support", "Tax optimization"],
     portfolioLimit := some 100000, rebalancingFrequency := "weekly",
     managementFee := "0.0020", hasAdvancedAnalytics := true,
     hasTaxOptimization := true, hasDedicatedAdvisor := false,
     isPopular := true },
   { id := "enterprise", name := "Enterprise", price := "99.00",
     features := ["Unlimited portfolio size", "AI-powered insights",
                  "Daily rebalancing", "Dedicated advisor", "Custom strategies"],
     portfolioLimit := none, rebalancingFrequency := "daily",
     managementFee := "0.0015", hasAdvancedAnalytics := true,
     hasTaxOptimization := true, hasDedicatedAdvisor := true,
     isPopular := false }]

/-- seedPlans (routes.ts): reads the plans table and, when it is empty,
builds defaultPlans — but the insert is only a comment in the source, so
the state is returned unchanged on both branches. -/
def seedPlans (st : Storage) : Storage :=
  let existingPlans := getPlans st
  if existingPlans.length = 0 then
    let _defaultPlans := defaultPlans
    st
  else st

/-- The ten sample history values the portfolio route backfills. -/
def samplePortfolioValues : List String :=
  ["100000", "102500", "98000", "105000", "108500", "112000", "118500",
   "121000", "119500", "124567"]

/-- GET /api/portfolio (routes.ts): returns the user's portfolio with its
last ten history rows; a user with no portfolio first gets a default
portfolio with fixed demo figures plus one history row per sample value. -/
def getPortfolioRoute (st : Storage) (userId : String) (now : Nat) :
    Storage × Portfolio × List PortfolioHistory :=
  match getUserPortfolio st userId with
  | some portfolio => (st, portfolio, getPortfolioHistory st portfolio.id 10)
  | none =>
    let r := createPortfolio st userId "124567.00" "18.4000" "2500.00" 12 now
    let st2 := samplePortfolioValues.foldl
      (fun acc v => (addPortfolioHistory acc r.2.id v now).1) r.1
    (st2, r.2, getPortfolioHistory st2 r.2.id 10)

/-! ### The Event Ingestion Pipeline and State Reconciler

The source webhook handler is a stub (stripeWebhookRoute above): the
pipeline and reconciler it should hand events to exist only in the design
document, so they are modelled from it here (spec sections 4.2 and 4.3). -/

/-- Modelled from the spec: the Subscription Record statuses of the
processor state machine (incomplete, active, past_due, canceled, unpaid). -/
inductive SubStatus where
  | incomplete
  | active
  | pastDue
  | canceled
  | unpaid
  deriving Repr, DecidableEq, Inhabited

/-- Modelled from the spec: Payment Record statuses. -/
inductive PayStatus where
  | pending
  | succeeded
  | failed
  deriving Repr, DecidableEq, Inhabited

/-- Modelled from the spec: the typed body of a processor event; unknown
event types are a forward-compatible no-op variant. -/
inductive EventBody where
  | paymentIntentSucceeded (paymentIntentId userId amount : String)
  | subscriptionUpdated (subscriptionId : String) (newStatus : SubStatus)
  | subscriptionDeleted (subscriptionId : String)
  | unknown
  deriving Repr, DecidableEq, Inhabited

/-- Modelled from the spec: a decoded webhook event — the processor event
identifier, the processor-supplied creation timestamp used as precedence
key, and the typed body. -/
structure WebhookEvent where
  eventId : String
  timestamp : Nat
  body : EventBody
  deriving Repr, DecidableEq, Inhabited

/-- Modelled from the spec: a Subscription Record with its last-applied
event marker. -/
structure SubRecord where
  subscriptionId : String
  status : SubStatus
  planId : String
  lastApplied : Nat
  deriving Repr, DecidableEq, Inhabited

/-- Modelled from the spec: a Payment Record with its last-applied marker
and webhook-applied time. -/
structure PayRecord where
  paymentIntentId : String
  userId : String
  amount : String
  status : PayStatus
  lastApplied : Nat
  appliedAt : Nat
  deriving Repr, DecidableEq, Inhabited

/-- Modelled from the spec: the persisted reconciliation state — the
Subscription and Payment Records plus the Processed Event Log of event
identifiers with application timestamps. -/
structure ReconState where
  subs : List SubRecord
  pays : List PayRecord
  processedLog : List (String × Nat)
  deriving Repr, DecidableEq, Inhabited

/-- Look up the Subscription Record of a processor subscription id. -/
def findSubRecord (st : ReconState) (sid : String) : Option SubRecord :=
  st.subs.find? (fun r => r.subscriptionId == sid)

/-- Look up the Payment Record of a processor payment-intent id. -/
def findPayRecord (st : ReconState) (pid : String) : Option PayRecord :=
  st.pays.find? (fun r => r.paymentIntentId == pid)

/-- Modelled from the spec: the State Reconciler's apply. An event touches
its target record only when its timestamp is newer than the record's
last-applied marker; canceled is terminal; a payment success with no
matching record creates one; an unresolved target is an orphan and is
dropped. -/
def applyEvent (st : ReconState) (ev : WebhookEvent) : ReconState :=
  match ev.body with
  | .subscriptionUpdated sid newStatus =>
    match findSubRecord st sid with
    | none => st
    | some r =>
      if r.status = .canceled then st
      else if ev.timestamp ≤ r.lastApplied then st
      else
        { st with subs := st.subs.map (fun x =>
            if x.subscriptionId == sid then
              { x with status := newStatus, lastApplied := ev.timestamp }
            else x) }
  | .subscriptionDeleted sid =>
    match findSubRecord st sid with
    | none => st
    | some r =>
      if r.status = .canceled then st
      else if ev.timestamp ≤ r.lastApplied then st
      else
        { st with subs := st.subs.map (fun x =>
            if x.subscriptionId == sid then
              { x with status := .canceled, lastApplied := ev.timestamp }
            else x) }
  | .paymentIntentSucceeded pid uid amount =>
    match findPayRecord st pid with
    | none =>
      { st with pays := st.pays ++
          [{ paymentIntentId := pid, userId := uid, amount := amount,
             status := .succeeded, lastApplied := ev.timestamp,
             appliedAt := ev.timestamp }] }
    | some r =>
      if ev.timestamp ≤ r.lastApplied then st
      else
        { st with pays := st.pays.map (fun x =>
            if x.paymentIntentId == pid then
              { x with status := .succeeded, lastApplied := ev.timestamp }
            else x) }
  | .unknown => st

/-- Modelled from the spec: the outcome of ingestion — ok is acknowledged
200 received true; authError is the AuthenticationError rejection. -/
inductive IngestResult where
  | ok
  | authError
  deriving Repr, DecidableEq, Inhabited

/-- The HTTP status each ingestion outcome is answered with. -/
def IngestResult.httpStatus : IngestResult → Nat
  | .ok => 200
  | .authError => 400

/-- Modelled from the spec: the Event Ingestion Pipeline. The signature
scheme and the payload decoder are collaborators passed as the mac and
decode functions; the pipeline verifies the signature header against the
raw payload under the shared secret, discards unknown event types as a
no-op, consults the Processed Event Log for deduplication, and otherwise
applies the event and records its identifier within one transactional
boundary. -/
def ingest (mac : String → String → String) (decode : String → WebhookEvent)
    (secret : String) (st : ReconState) (raw sig : String) (now : Nat) :
    ReconState × IngestResult :=
  if sig ≠ mac secret raw then (st, .authError)
  else
    let ev := decode raw
    match ev.body with
    | .unknown => (st, .ok)
    | _ =>
      if st.processedLog.any (fun e => e.1 == ev.eventId) then (st, .ok)
      else
        let st1 := applyEvent st ev
        ({ st1 with processedLog := (ev.eventId, now) :: st1.processedLog }, .ok)

/-! ### Concrete fixtures used by witnesses and counterexamples -/

/-- A user who already completed subscription creation. -/
def wUser : User :=
  { id := "u1", email := some "a@example.com", firstName := some "Ada",
    lastName := some "Lovelace", stripeCustomerId := some "cus_9",
    stripeSubscriptionId := some "sub_9", currentPlan := some "starter",
    updatedAt := 0 }

/-- A user with an existing subscription but no email on file. -/
def cUser : User :=
  { id := "u2", email := none, firstName := none, lastName := none,
    stripeCustomerId := some "cus_9", stripeSubscriptionId := some "sub_9",
    currentPlan := none, updatedAt := 0 }

/-- A fresh user with neither email nor subscription. -/
def nUser : User :=
  { id := "u3", email := none, firstName := none, lastName := none,
    stripeCustomerId := none, stripeSubscriptionId := none,
    currentPlan := none, updatedAt := 0 }

/-- The starter plan row. -/
def wPlan : Plan :=
  { id := "starter", name := "Starter", price := "0.00",
    features := ["Basic portfolio tracking"], portfolioLimit := some 10000,
    rebalancingFrequency := "monthly", managementFee := "0.0025",
    hasAdvancedAnalytics := false, hasTaxOptimization := false,
    hasDedicatedAdvisor := false, isPopular := false }

/-- The processor-side subscription wUser and cUser point at. -/
def wSub : StripeSubscription :=
  { id := "sub_9", customerId := "cus_9", latestInvoice := "in_9",
    productName := "Starter", priceStr := "0.00", status := "active" }

/-- The latest invoice of wSub, with an expanded payment intent. -/
def wInv : StripeInvoice :=
  { id := "in_9", paymentIntentSecret := some "seti_9" }

/-- Storage holding wUser and the starter plan. -/
def wStorage : Storage :=
  { users := [wUser], plans := [wPlan], portfolios := [], portfolioHistory := [],
    payments := [], nextId := 0 }

/-- Storage holding cUser (no email, existing subscription) and the plan. -/
def cStorage : Storage :=
  { users := [cUser], plans := [wPlan], portfolios := [], portfolioHistory := [],
    payments := [], nextId := 0 }

/-- Storage holding nUser (no email, no subscription) and the plan. -/
def nStorage : Storage :=
  { users := [nUser], plans := [wPlan], portfolios := [], portfolioHistory := [],
    payments := [], nextId := 0 }

/-- An empty storage. -/
def emptyStorage : Storage :=
  { users := [], plans := [], portfolios := [], portfolioHistory := [],
    payments := [], nextId := 0 }

/-- Processor state holding wSub and wInv. -/
def wStripe : StripeState :=
  { customers := [], subscriptions := [wSub], invoices := [wInv], nextId := 10 }

/-- A pre-existing portfolio row for the C9 witness. -/
def pPortfolio : Portfolio :=
  { id := "p0", userId := "u1", totalValue := "50000.00", totalReturn := "1.0000",
    monthlyDeposit := "100.00", activeInvestments := 3, updatedAt := 0 }

/-- Storage already holding pPortfolio for its user. -/
def pStorage : Storage :=
  { users := [], plans := [], portfolios := [pPortfolio], portfolioHistory := [],
    payments := [], nextId := 1 }

/-- A payment row matched by the C10 witness update. -/
def wPay1 : Payment :=
  { id := "pay1", userId := "u1", amount := "29.00", status := "pending",
    stripePaymentIntentId := some "pi_1", createdAt := 7 }

/-- A payment row not matched by the C10 witness update. -/
def wPay2 : Payment :=
  { id := "pay2", userId := "u1", amount := "99.00", status := "pending",
    stripePaymentIntentId := none, createdAt := 8 }

/-- Storage holding the two payment rows. -/
def payStorage : Storage :=
  { users := [], plans := [], portfolios := [], portfolioHistory := [],
    payments := [wPay1, wPay2], nextId := 0 }

/-- A concrete shared-secret MAC for witnesses. -/
def mac0 (secret payload : String) : String :=
  secret ++ ":" ++ payload

/-- A concrete decoder for witnesses: one known raw payload decodes to a
subscription update, anything else to an unknown event. -/
def decode1 (raw : String) : WebhookEvent :=
  if raw = "raw_upd" then
    { eventId := "evt_2", timestamp := 2,
      body := .subscriptionUpdated "sub_1" .pastDue }
  else
    { eventId := "evt_0", timestamp := 0, body := .unknown }

/-- The reconciliation state with one incomplete subscription record. -/
def e3State : ReconState :=
  { subs := [{ subscriptionId := "sub_1", status := .incomplete,
               planId := "starter", lastApplied := 0 }],
    pays := [], processedLog := [] }

/-- Event E1 of the out-of-order scenario: t = 1, status active. -/
def evtE1 : WebhookEvent :=
  { eventId := "evt_1", timestamp := 1,
    body := .subscriptionUpdated "sub_1" .active }

/-- Event E2 of the out-of-order scenario: t = 2, status past_due. -/
def evtE2 : WebhookEvent :=
  { eventId := "evt_2", timestamp := 2,
    body := .subscriptionUpdated "sub_1" .pastDue }

/-- A record whose marker is already ahead of the stale witness event. -/
def staleRec : SubRecord :=
  { subscriptionId := "sub_2", status := .active, planId := "professional",
    lastApplied := 5 }

/-- State holding staleRec. -/
def staleState : ReconState :=
  { subs := [staleRec], pays := [], processedLog := [] }

/-- An event with a timestamp behind staleRec's marker. -/
def staleEvt : WebhookEvent :=
  { eventId := "evt_9", timestamp := 3,
    body := .subscriptionUpdated "sub_2" .active }

/-- A subscription-deleted event behind staleRec's marker. -/
def staleDelEvt : WebhookEvent :=
  { eventId := "evt_10", timestamp := 4,
    body := .subscriptionDeleted "sub_2" }

/-- A Payment Record whose marker is ahead of the stale payment event. -/
def stalePayRec : PayRecord :=
  { paymentIntentId := "pi_7", userId := "u1", amount := "29.00",
    status := .pending, lastApplied := 6, appliedAt := 6 }

/-- State holding stalePayRec. -/
def stalePayState : ReconState :=
  { subs := [], pays := [stalePayRec], processedLog := [] }

/-- A payment-succeeded event with a timestamp behind stalePayRec's marker. -/
def stalePayEvt : WebhookEvent :=
  { eventId := "evt_11", timestamp := 4,
    body := .paymentIntentSucceeded "pi_7" "u1" "29.00" }

/-! ### Helper lemmas -/

/-- The row rewriter used by updatePaymentStatus keeps every column other
than status. -/
theorem updatePaymentStatus_row_id (pid status : String) (p : Payment) :
    (if p.id == pid then { p with status := status } else p).id = p.id := by
  by_cases h : p.id == pid <;> simp [h]

/-- A successful retrieval finds the subscription with the requested id. -/
theorem retrieveSubscription_id (sp : StripeState) (sid : String)
    (sub : StripeSubscription) (h : retrieveSubscription sp sid = some sub) :
    sub.id = sid := by
  have := List.find?_some h
  simpa using this

/-! ### The claims -/

/-- C1: a webhook delivery whose signature header does not verify against
the raw payload under the shared secret is rejected as an
AuthenticationError answered with HTTP 400, the event is not applied, the
state is unchanged, and no entry joins the Processed Event Log. -/
theorem ingest_badSignature (mac : String → String → String)
    (decode : String → WebhookEvent) (secret : String) (st : ReconState)
    (raw sig : String) (now : Nat) (h : sig ≠ mac secret raw) :
    ingest mac decode secret st raw sig now = (st, .authError) ∧
    (ingest mac decode secret st raw sig now).1.processedLog = st.processedLog ∧
    IngestResult.authError.httpStatus = 400 := by
  refine ⟨?_, ?_, rfl⟩ <;> simp [ingest, h]

/-- Witness for C1 at a concrete secret, payload and wrong signature. -/
theorem ingest_badSignature_witness :
    ingest mac0 decode1 "whsec" e3State "raw_upd" "bad" 7 =
      (e3State, .authError) ∧
    (ingest mac0 decode1 "whsec" e3State "raw_upd" "bad" 7).1.processedLog =
      e3State.processedLog ∧
    IngestResult.authError.httpStatus = 400 :=
  ingest_badSignature mac0 decode1 "whsec" e3State "raw_upd" "bad" 7 (by decide)

/-- C2: ingesting the same raw event a second time is a no-op returning
success: the state after the second ingestion is exactly the state after
the first, so an at-least-once delivery has an at-most-once effect. -/
theorem ingest_dedup (mac : String → String → String)
    (decode : String → WebhookEvent) (secret : String) (st : ReconState)
    (raw sig : String) (n1 n2 : Nat) (hsig : sig = mac secret raw) :
    ingest mac decode secret
        ((ingest mac decode secret st raw sig n1).1) raw sig n2 =
      ((ingest mac decode secret st raw sig n1).1, .ok) := by
  subst hsig
  cases hb : (decode raw).body with
  | unknown => simp [ingest, hb]
  | paymentIntentSucceeded pid uid amt =>
    by_cases hlog : st.processedLog.any (fun e => e.1 == (decode raw).eventId)
    · simp [ingest, hb, hlog]
    · simp [ingest, hb, hlog]
  | subscriptionUpdated sid ns =>
    by_cases hlog : st.processedLog.any (fun e => e.1 == (decode raw).eventId)
    · simp [ingest, hb, hlog]
    · simp [ingest, hb, hlog]
  | subscriptionDeleted sid =>
    by_cases hlog : st.processedLog.any (fun e => e.1 == (decode raw).eventId)
    · simp [ingest, hb, hlog]
    · simp [ingest, hb, hlog]

/-- Witness for C2: redelivering the concrete subscription update. -/
theorem ingest_dedup_witness :
    ingest mac0 decode1 "whsec"
        ((ingest mac0 decode1 "whsec" e3State "raw_upd"
            (mac0 "whsec" "raw_upd") 10).1)
        "raw_upd" (mac0 "whsec" "raw_upd") 11 =
      ((ingest mac0 decode1 "whsec" e3State "raw_upd"
          (mac0 "whsec" "raw_upd") 10).1, .ok) :=
  ingest_dedup mac0 decode1 "whsec" e3State "raw_upd"
    (mac0 "whsec" "raw_upd") 10 11 rfl

/-- C3: the reconciler applies an event to an existing Subscription or
Payment Record only when its timestamp is newer than the record's
last-applied marker — a stale subscription update, subscription deletion
or payment success leaves the state unchanged — and in the E2-then-E1
scenario (E2 at t = 2 sets past_due, E1 at t = 1 sets active) the final
status is past_due with marker 2. -/
theorem reconciler_stale_discard :
    (∀ (st : ReconState) (ev : WebhookEvent) (sid : String) (ns : SubStatus)
       (r : SubRecord), ev.body = .subscriptionUpdated sid ns →
       findSubRecord st sid = some r → ev.timestamp ≤ r.lastApplied →
       applyEvent st ev = st) ∧
    (∀ (st : ReconState) (ev : WebhookEvent) (sid : String)
       (r : SubRecord), ev.body = .subscriptionDeleted sid →
       findSubRecord st sid = some r → ev.timestamp ≤ r.lastApplied →
       applyEvent st ev = st) ∧
    (∀ (st : ReconState) (ev : WebhookEvent) (pid uid amt : String)
       (r : PayRecord), ev.body = .paymentIntentSucceeded pid uid amt →
       findPayRecord st pid = some r → ev.timestamp ≤ r.lastApplied →
       applyEvent st ev = st) ∧
    findSubRecord (applyEvent (applyEvent e3State evtE2) evtE1) "sub_1" =
      some { subscriptionId := "sub_1", status := .pastDue, planId := "starter",
             lastApplied := 2 } := by
  refine ⟨?_, ?_, ?_, rfl⟩
  · intro st ev sid ns r hb hr hts
    by_cases hc : r.status = SubStatus.canceled
    · simp [applyEvent, hb, hr, hc]
    · simp [applyEvent, hb, hr, hc, hts]
  · intro st ev sid r hb hr hts
    by_cases hc : r.status = SubStatus.canceled
    · simp [applyEvent, hb, hr, hc]
    · simp [applyEvent, hb, hr, hc, hts]
  · intro st ev pid uid amt r hb hr hts
    simp [applyEvent, hb, hr, hts]

/-- Witness for C3: a stale update, a stale deletion and a stale payment
success each leave their concrete state untouched, and the out-of-order
scenario ends in past_due. -/
theorem reconciler_stale_discard_witness :
    applyEvent staleState staleEvt = staleState ∧
    applyEvent staleState staleDelEvt = staleState ∧
    applyEvent stalePayState stalePayEvt = stalePayState ∧
    findSubRecord (applyEvent (applyEvent e3State evtE2) evtE1) "sub_1" =
      some { subscriptionId := "sub_1", status := .pastDue, planId := "starter",
             lastApplied := 2 } :=
  ⟨reconciler_stale_discard.1 staleState staleEvt "sub_2" .active staleRec
      rfl rfl (by decide),
   reconciler_stale_discard.2.1 staleState staleDelEvt "sub_2" staleRec
      rfl rfl (by decide),
   reconciler_stale_discard.2.2.1 stalePayState stalePayEvt "pi_7" "u1" "29.00"
      stalePayRec rfl rfl (by decide),
   reconciler_stale_discard.2.2.2⟩

/-- C4: for a user whose record already carries a subscription identifier
that exists at the processor, the create-subscription route answers with
exactly that subscriptionId and the latest invoice's payment-intent client
secret, mutates neither the store nor the processor, and a second call
returns the same answer (in particular the same subscriptionId). -/
theorem createSubscription_idempotent (st : Storage) (sp : StripeState)
    (uid pid sid : String) (u : User) (plan : Plan)
    (sub : StripeSubscription) (inv : StripeInvoice) (n1 n2 : Nat)
    (hu : getUser st uid = some u)
    (hsid : u.stripeSubscriptionId = some sid)
    (hp : getPlan st pid = some plan)
    (hsub : retrieveSubscription sp sid = some sub)
    (hinv : retrieveInvoice sp sub.latestInvoice = some inv) :
    createSubscriptionRoute st sp uid (some pid) n1 =
      (st, sp, { status := 200, subscriptionId := some sid,
                 clientSecret := inv.paymentIntentSecret }) ∧
    createSubscriptionRoute st sp uid (some pid) n2 =
      createSubscriptionRoute st sp uid (some pid) n1 := by
  have hid : sub.id = sid := retrieveSubscription_id sp sid sub hsub
  constructor
  · simp [createSubscriptionRoute, hu, hp, hsid, hsub, hinv, hid]
  · simp [createSubscriptionRoute, hu, hp, hsid, hsub, hinv]

/-- Witness for C4 at a concrete store, processor state and user. -/
theorem createSubscription_idempotent_witness :
    createSubscriptionRoute wStorage wStripe "u1" (some "starter") 1 =
      (wStorage, wStripe, { status := 200, subscriptionId := some "sub_9",
                            clientSecret := wInv.paymentIntentSecret }) ∧
    createSubscriptionRoute wStorage wStripe "u1" (some "starter") 2 =
      createSubscriptionRoute wStorage wStripe "u1" (some "starter") 1 :=
  createSubscription_idempotent wStorage wStripe "u1" "starter" "sub_9"
    wUser wPlan wSub wInv 1 2 rfl rfl rfl rfl rfl

/-- C5: when the user or the plan named by the request does not exist, the
route answers 404 with a message object, and neither the store nor the
processor state changes. -/
theorem createSubscription_notFound (st : Storage) (sp : StripeState)
    (uid pid : String) (now : Nat)
    (h : getUser st uid = none ∨ getPlan st pid = none) :
    (createSubscriptionRoute st sp uid (some pid) now).1 = st ∧
    (createSubscriptionRoute st sp uid (some pid) now).2.1 = sp ∧
    (createSubscriptionRoute st sp uid (some pid) now).2.2.status = 404 ∧
    ((createSubscriptionRoute st sp uid (some pid) now).2.2.message =
        some "User not found" ∨
      (createSubscriptionRoute st sp uid (some pid) now).2.2.message =
        some "Plan not found") := by
  rcases h with h | h
  · simp [createSubscriptionRoute, h]
  · cases hu : getUser st uid with
    | none => simp [createSubscriptionRoute, hu]
    | some u => simp [createSubscriptionRoute, hu, h]

/-- Witness for C5: an unknown user against the concrete store. -/
theorem createSubscription_notFound_witness :
    (createSubscriptionRoute emptyStorage wStripe "nobody" (some "starter") 0).1 =
      emptyStorage ∧
    (createSubscriptionRoute emptyStorage wStripe "nobody" (some "starter") 0).2.1 =
      wStripe ∧
    (createSubscriptionRoute emptyStorage wStripe "nobody" (some "starter") 0).2.2.status =
      404 ∧
    ((createSubscriptionRoute emptyStorage wStripe "nobody" (some "starter") 0).2.2.message =
        some "User not found" ∨
      (createSubscriptionRoute emptyStorage wStripe "nobody" (some "starter") 0).2.2.message =
        some "Plan not found") :=
  createSubscription_notFound emptyStorage wStripe "nobody" "starter" 0 (Or.inl rfl)

/-- C6 counterexample: cUser has no email on file, yet because the user
row already carries a subscription identifier the route answers 200 (the
existing-subscription branch runs before the email check), not the 400 the
claim requires. -/
theorem createSubscription_noEmail_cex :
    getUser cStorage "u2" = some cUser ∧ cUser.email = none ∧
    (createSubscriptionRoute cStorage wStripe "u2" (some "starter") 0).2.2.status = 200 ∧
    (createSubscriptionRoute cStorage wStripe "u2" (some "starter") 0).2.2.status ≠ 400 := by
  refine ⟨rfl, rfl, rfl, by decide⟩

/-- C6 amended: for an existing user with no email on file and no recorded
subscription identifier, requesting an existing plan fails with 400 and a
validation message, and no processor objects are created and no store row
changes. -/
theorem createSubscription_noEmail (st : Storage) (sp : StripeState)
    (uid pid : String) (now : Nat) (u : User) (plan : Plan)
    (hu : getUser st uid = some u) (hp : getPlan st pid = some plan)
    (hns : u.stripeSubscriptionId = none) (hne : u.email = none) :
    createSubscriptionRoute st sp uid (some pid) now =
      (st, sp, { status := 400, message := some "No user email on file" }) := by
  simp [createSubscriptionRoute, hu, hp, hns, hne]

/-- Witness for the amended C6 at the concrete fresh user. -/
theorem createSubscription_noEmail_witness :
    createSubscriptionRoute nStorage wStripe "u3" (some "starter") 0 =
      (nStorage, wStripe, { status := 400, message := some "No user email on file" }) :=
  createSubscription_noEmail nStorage wStripe "u3" "starter" 0 nUser wPlan
    rfl rfl rfl rfl

/-- C7: the webhook handler never persists anything: for every payload the
storage it returns is the one it was given, table by table. -/
theorem stripeWebhookRoute_frame (st : Storage) (payload : Option WebhookPayload) :
    (stripeWebhookRoute st payload).1 = st ∧
    (stripeWebhookRoute st payload).1.users = st.users ∧
    (stripeWebhookRoute st payload).1.payments = st.payments ∧
    (stripeWebhookRoute st payload).1.portfolios = st.portfolios ∧
    (stripeWebhookRoute st payload).1.portfolioHistory = st.portfolioHistory ∧
    (stripeWebhookRoute st payload).1.plans = st.plans := by
  rcases payload with _ | ⟨t, d⟩
  · exact ⟨rfl, rfl, rfl, rfl, rfl, rfl⟩
  · cases t <;> exact ⟨rfl, rfl, rfl, rfl, rfl, rfl⟩

/-- C8: seedPlans is dead code with respect to the store: whatever the
initial plans table holds, it returns the state unchanged. -/
theorem seedPlans_noop (st : Storage) : seedPlans st = st := by
  simp [seedPlans]

/-- C9: a user with a portfolio gets it back with its history and no state
changes; a user without one gets a portfolio created with the fixed demo
figures, exactly ten history rows are appended (carrying the sample
values), and no other table changes. -/
theorem getPortfolioRoute_spec (st : Storage) (uid : String) (now : Nat) :
    (∀ p : Portfolio, getUserPortfolio st uid = some p →
       getPortfolioRoute st uid now = (st, p, getPortfolioHistory st p.id 10)) ∧
    (getUserPortfolio st uid = none →
       ∃ p : Portfolio,
         (getPortfolioRoute st uid now).2.1 = p ∧
         p.userId = uid ∧ p.totalValue = "124567.00" ∧ p.totalReturn = "18.4000" ∧
         p.monthlyDeposit = "2500.00" ∧ p.activeInvestments = 12 ∧
         (getPortfolioRoute st uid now).1.portfolios = st.portfolios ++ [p] ∧
         (getPortfolioRoute st uid now).1.portfolioHistory.length =
           st.portfolioHistory.length + 10 ∧
         ((getPortfolioRoute st uid now).1.portfolioHistory.drop
             st.portfolioHistory.length).map (fun h => h.value) =
           samplePortfolioValues ∧
         (getPortfolioRoute st uid now).1.users = st.users ∧
         (getPortfolioRoute st uid now).1.payments = st.payments ∧
         (getPortfolioRoute st uid now).1.plans = st.plans) := by
  constructor
  · intro p hp
    simp [getPortfolioRoute, hp]
  · intro h
    refine ⟨{ id := "p" ++ toString st.nextId, userId := uid,
              totalValue := "124567.00", totalReturn := "18.4000",
              monthlyDeposit := "2500.00", activeInvestments := 12,
              updatedAt := now },
            ?_, rfl, rfl, rfl, rfl, rfl, ?_, ?_, ?_, ?_, ?_, ?_⟩ <;>
      simp [getPortfolioRoute, h, createPortfolio, addPortfolioHistory,
            samplePortfolioValues, List.drop_left]

/-- Witness for C9: both branches at concrete stores — a user who already
has a portfolio, and a fresh user against the empty store. -/
theorem getPortfolioRoute_spec_witness :
    getPortfolioRoute pStorage "u1" 3 =
      (pStorage, pPortfolio, getPortfolioHistory pStorage pPortfolio.id 10) ∧
    (∃ p : Portfolio,
       (getPortfolioRoute emptyStorage "u2" 3).2.1 = p ∧
       p.userId = "u2" ∧ p.totalValue = "124567.00" ∧ p.totalReturn = "18.4000" ∧
       p.monthlyDeposit = "2500.00" ∧ p.activeInvestments = 12 ∧
       (getPortfolioRoute emptyStorage "u2" 3).1.portfolios =
         emptyStorage.portfolios ++ [p] ∧
       (getPortfolioRoute emptyStorage "u2" 3).1.portfolioHistory.length =
         emptyStorage.portfolioHistory.length + 10 ∧
       ((getPortfolioRoute emptyStorage "u2" 3).1.portfolioHistory.drop
           emptyStorage.portfolioHistory.length).map (fun h => h.value) =
         samplePortfolioValues ∧
       (getPortfolioRoute emptyStorage "u2" 3).1.users = emptyStorage.users ∧
       (getPortfolioRoute emptyStorage "u2" 3).1.payments = emptyStorage.payments ∧
       (getPortfolioRoute emptyStorage "u2" 3).1.plans = emptyStorage.plans) :=
  ⟨(getPortfolioRoute_spec pStorage "u1" 3).1 pPortfolio rfl,
   (getPortfolioRoute_spec emptyStorage "u2" 3).2 rfl⟩

/-- C10: updatePaymentStatus touches only the payments table; within it, a
row whose id differs is untouched, the matching row changes exactly its
status column, and the returned row is none precisely when no payment has
the requested id. -/
theorem updatePaymentStatus_frame (s : Storage) (pid status : String) :
    ((updatePaymentStatus s pid status).1.users = s.users ∧
     (updatePaymentStatus s pid status).1.plans = s.plans ∧
     (updatePaymentStatus s pid status).1.portfolios = s.portfolios ∧
     (updatePaymentStatus s pid status).1.portfolioHistory = s.portfolioHistory ∧
     (updatePaymentStatus s pid status).1.nextId = s.nextId) ∧
    (updatePaymentStatus s pid status).1.payments.length = s.payments.length ∧
    (∀ (i : Nat) (p : Payment), s.payments[i]? = some p →
      (p.id ≠ pid → (updatePaymentStatus s pid status).1.payments[i]? = some p) ∧
      (p.id = pid →
        (updatePaymentStatus s pid status).1.payments[i]? =
          some { p with status := status } ∧
        ({ p with status := status } : Payment).userId = p.userId ∧
        ({ p with status := status } : Payment).amount = p.amount ∧
        ({ p with status := status } : Payment).createdAt = p.createdAt ∧
        ({ p with status := status } : Payment).stripePaymentIntentId =
          p.stripePaymentIntentId)) ∧
    ((updatePaymentStatus s pid status).2 = none ↔ ∀ p ∈ s.payments, p.id ≠ pid) := by
  refine ⟨⟨rfl, rfl, rfl, rfl, rfl⟩, ?_, ?_, ?_⟩
  · simp [updatePaymentStatus]
  · intro i p hp
    constructor
    · intro hne
      simp [updatePaymentStatus, List.getElem?_map, hp, hne]
    · intro heq
      refine ⟨?_, rfl, rfl, rfl, rfl⟩
      simp [updatePaymentStatus, List.getElem?_map, hp, heq]
  · simp only [updatePaymentStatus, List.find?_eq_none, List.mem_map]
    constructor
    · intro h p hp
      have := h _ ⟨p, hp, rfl⟩
      intro hid
      rw [updatePaymentStatus_row_id] at this
      simp [hid] at this
    · rintro h x ⟨p, hp, rfl⟩
      rw [updatePaymentStatus_row_id]
      simpa using h p hp

/-- Witness for C10: updating pay1 rewrites only its status, leaves pay2
alone, and updating an id no row carries returns none. -/
theorem updatePaymentStatus_frame_witness :
    (updatePaymentStatus payStorage "pay1" "succeeded").1.payments[0]? =
      some { wPay1 with status := "succeeded" } ∧
    (updatePaymentStatus payStorage "pay1" "succeeded").1.payments[1]? =
      some wPay2 ∧
    ((updatePaymentStatus payStorage "nope" "x").2 = none ↔
      ∀ p ∈ payStorage.payments, p.id ≠ "nope") := by
  refine ⟨?_, ?_, ?_⟩
  · exact (((updatePaymentStatus_frame payStorage "pay1" "succeeded").2.2.1
      0 wPay1 rfl).2 rfl).1
  · exact ((updatePaymentStatus_frame payStorage "pay1" "succeeded").2.2.1
      1 wPay2 rfl).1 (by decide)
  · exact (updatePaymentStatus_frame payStorage "nope" "x").2.2.2

end Invest
